import Mathlib

/-!
Shallow embedding of the plataforma-educativa server (src/server.js).
The repository consists of two near-duplicate Express servers concatenated in
one file: a better-sqlite3 variant (lines 1-421) and a PostgreSQL variant
(lines 422-1083).  Route handlers are modelled as pure functions from the
request data and a database value to a response and a new database value.
Conventions:
  - a JSON/multipart body field is an `Option String`; `none` models an
    absent field (JS undefined), `some s` a present string;
  - JS truthiness of such a field is `truthy` (absent and empty are falsy);
  - better-sqlite3 throws a TypeError when a statement parameter is
    undefined; in the SQLite variant (no error middleware) this escapes the
    handler and Express answers 500 with its default page, modelled as the
    response body `Body.crash` and an unchanged database;
  - node-postgres sends an undefined parameter as SQL NULL, and every
    PostgreSQL-variant handler wraps its query in try/catch, converting a
    database error into a 500 JSON error;
  - bcryptjs is an external library; it is modelled by a wrapper type in
    which comparison succeeds exactly on the hashed password;
  - the uploads directory is a list of stored path strings, and the outcome
    of an fs.unlink call is an explicit boolean parameter, since the
    handlers ignore it (the callback only logs).
-/

namespace Plataforma

/-- A request body field: `none` is an absent field (JS undefined). -/
abbrev Field := Option String

/-- JS truthiness of a body field: absent and empty-string are falsy. -/
def truthy : Field → Bool
  | none => false
  | some s => decide (s ≠ "")

/-- The JS coercion `x || null` applied to a body field, as a SQL value
(`none` is SQL NULL). -/
def orNull (f : Field) : Option String :=
  if truthy f then f else none

/-- Model of a bcryptjs hash: `bcryptCompare` succeeds exactly on the
hashed password (the library is an external collaborator of the server). -/
structure BcryptHash where
  pw : String
deriving DecidableEq, Repr

/-- Model of `bcrypt.hash(password, 10)`. -/
def bcryptHash (password : String) : BcryptHash := ⟨password⟩

/-- Model of `bcrypt.compare(password, hash)`. -/
def bcryptCompare (password : String) (h : BcryptHash) : Bool :=
  h.pw == password

/-- A row of the `users` table. -/
structure UserRow where
  id : Nat
  username : String
  name : Option String
  email : Option String
  password : BcryptHash
  register_date : String
  profile_pic : Option String
  phone : Option String
  socials : Option String
deriving DecidableEq, Repr

/-- A row of the `tasks` table (`completed` defaults to 0). -/
structure TaskRow where
  id : Nat
  user_id : Nat
  title : Option String
  category : Option String
  completed : Nat
deriving DecidableEq, Repr

/-- A row of the `files` table. -/
structure FileRow where
  id : Nat
  user_id : Nat
  filename : String
  category : Option String
deriving DecidableEq, Repr

/-- A row of the `resources` table (`title` and `link` are NOT NULL). -/
structure ResourceRow where
  id : Nat
  user_id : Nat
  title : String
  link : String
  image : Option String
deriving DecidableEq, Repr

/-- A row of the `notes` table. -/
structure NoteRow where
  id : Nat
  user_id : Nat
  content : String
deriving DecidableEq, Repr

/-- A row of the `topics` table (global: no owner column). -/
structure TopicRow where
  id : Nat
  subject : Option String
  subtopic : Option String
  explanation : Option String
  image : Option String
  link : Option String
deriving DecidableEq, Repr

/-- The whole database, with one autoincrement counter per table. -/
structure Db where
  users : List UserRow
  nextUserId : Nat
  tasks : List TaskRow
  nextTaskId : Nat
  files : List FileRow
  nextFileId : Nat
  resources : List ResourceRow
  nextResourceId : Nat
  notes : List NoteRow
  nextNoteId : Nat
  topics : List TopicRow
  nextTopicId : Nat
deriving DecidableEq, Repr

/-- The uploads directory: the stored path strings currently on disk. -/
abbrev Fs := List String

/-- A JSON (or error) response body. -/
inductive Body where
  | success
  | successId (id : Nat)
  | successFile (filename : String)
  | error (msg : String)
  | redirect (target : String)
  | userRow (u : UserRow)
  | taskRows (rows : List TaskRow)
  | fileRows (rows : List FileRow)
  | resourceRows (rows : List ResourceRow)
  | noteRows (rows : List NoteRow)
  | topicRows (rows : List TopicRow)
  | crash
deriving DecidableEq, Repr

/-- An HTTP response. -/
structure Resp where
  status : Nat
  body : Body
deriving DecidableEq, Repr

/-- The 401 response of the `isAuthenticated` middleware. -/
def unauthorized : Resp := ⟨401, .error "No autorizado"⟩

/-- The response when an uncaught exception escapes a SQLite-variant
handler (Express default error handling: status 500). -/
def crashResp : Resp := ⟨500, .crash⟩

/-- The `isAuthenticated` middleware (identical in both variants):
if `req.session.userId` is truthy the downstream handler runs with it,
otherwise the response is 401 and the handler never runs.  The session is
`none` when no session user id accompanies the request. -/
def isAuthenticated {σ : Type} (session : Option Nat)
    (handler : Nat → σ → Resp × σ) (s : σ) : Resp × σ :=
  match session with
  | none => (unauthorized, s)
  | some uid => if uid = 0 then (unauthorized, s) else handler uid s

/-- Model of `fs.unlink(p, cb)`: `ok` is whether the unlink succeeded; on
failure the callback only logs, so the file stays. -/
def fsUnlink (ok : Bool) (p : String) (fs : Fs) : Fs :=
  if ok then fs.erase p else fs

namespace Sqlite

/-- POST /api/register (SQLite variant, lines 143-161): validates the four
mandatory fields, then inserts; a UNIQUE violation on username or email is
caught and answered with the generic 500 message of the catch block. -/
def register (today : String) (username name email password phone socials : Field)
    (file : Option String) (db : Db) : Resp × Db :=
  let profile_pic : Option String := file.map (fun fn => "/uploads/" ++ fn)
  if !(truthy username && truthy name && truthy email && truthy password) then
    (⟨400, .error "Faltan campos obligatorios"⟩, db)
  else
    let u := username.getD ""
    let e := email.getD ""
    if db.users.any (fun w => w.username == u || w.email == some e) then
      (⟨500, .error "Error en el servidor al hashear la contraseña"⟩, db)
    else
      (⟨200, .success⟩,
       { db with
         users := db.users ++ [⟨db.nextUserId, u, some (name.getD ""), some e,
           bcryptHash (password.getD ""), today, profile_pic,
           orNull phone, orNull socials⟩]
         nextUserId := db.nextUserId + 1 })

/-- POST /api/login (SQLite variant, lines 164-179).  When no user row
matches the username, the handler dereferences `user.password` on
undefined and throws before the `!user` check can run: Express answers
500.  Returns the response and the session user id after the request. -/
def login (username password : String) (db : Db) : Resp × Option Nat :=
  match db.users.find? (fun w => w.username == username) with
  | none => (crashResp, none)
  | some u =>
    if bcryptCompare password u.password then
      (⟨200, .redirect "/home.html"⟩, some u.id)
    else
      (⟨400, .error "Credenciales inválidas"⟩, none)

/-- GET /api/user (SQLite variant, lines 188-195). -/
def getUser (session : Option Nat) (db : Db) : Resp × Db :=
  isAuthenticated session (fun uid db =>
    match db.users.find? (fun w => w.id == uid) with
    | none => (⟨404, .error "Usuario no encontrado"⟩, db)
    | some u => (⟨200, .userRow u⟩, db)) db

/-- POST /api/user/update (SQLite variant, lines 198-217): name, email,
phone, socials are overwritten with `x || null`; the profile_pic column is
included only when a new file or a truthy body value is present.  An email
UNIQUE violation is caught and answered 500 with the database unchanged. -/
def userUpdate (session : Option Nat) (name email phone socials : Field)
    (file : Option String) (bodyPic : Field) (db : Db) : Resp × Db :=
  isAuthenticated session (fun uid db =>
    let profile_pic : Option String :=
      match file with
      | some fn => some ("/uploads/" ++ fn)
      | none => orNull bodyPic
    let newEmail := orNull email
    let conflict := match newEmail with
      | some e => db.users.any (fun w => w.id != uid && w.email == some e)
      | none => false
    if conflict then (⟨500, .error "Error en la base de datos"⟩, db)
    else
      (⟨200, .success⟩,
       { db with users := db.users.map (fun w =>
           if w.id == uid then
             { w with
               name := orNull name, email := newEmail,
               phone := orNull phone, socials := orNull socials,
               profile_pic := match profile_pic with
                 | some p => some p
                 | none => w.profile_pic }
           else w) })) db

/-- GET /api/tasks (SQLite variant, lines 220-224). -/
def getTasks (session : Option Nat) (db : Db) : Resp × Db :=
  isAuthenticated session (fun uid db =>
    (⟨200, .taskRows (db.tasks.filter (fun t => t.user_id == uid))⟩, db)) db

/-- POST /api/tasks (SQLite variant, lines 226-231): no validation; an
absent field is an undefined statement parameter, which better-sqlite3
rejects by throwing (500, nothing inserted). -/
def postTasks (session : Option Nat) (title category : Field) (db : Db) :
    Resp × Db :=
  isAuthenticated session (fun uid db =>
    match title, category with
    | some t, some c =>
      (⟨200, .success⟩,
       { db with
         tasks := db.tasks ++ [⟨db.nextTaskId, uid, some t, some c, 0⟩]
         nextTaskId := db.nextTaskId + 1 })
    | _, _ => (crashResp, db)) db

/-- PUT /api/tasks/:id (SQLite variant, lines 233-238): sets all three
columns on the row matching id AND user_id; an absent field makes the
binding throw (500, nothing updated). -/
def putTasks (session : Option Nat) (i : Nat) (title category : Field)
    (completed : Option Nat) (db : Db) : Resp × Db :=
  isAuthenticated session (fun uid db =>
    match title, category, completed with
    | some t, some c, some k =>
      (⟨200, .success⟩,
       { db with tasks := db.tasks.map (fun r =>
           if r.id == i && r.user_id == uid then
             { r with title := some t, category := some c, completed := k }
           else r) })
    | _, _, _ => (crashResp, db)) db

/-- DELETE /api/tasks/:id (SQLite variant, lines 240-244). -/
def deleteTasks (session : Option Nat) (i : Nat) (db : Db) : Resp × Db :=
  isAuthenticated session (fun uid db =>
    (⟨200, .success⟩,
     { db with tasks := db.tasks.filter (fun r =>
         !(r.id == i && r.user_id == uid)) })) db

/-- GET /api/files (SQLite variant, lines 247-251). -/
def getFiles (session : Option Nat) (db : Db) : Resp × Db :=
  isAuthenticated session (fun uid db =>
    (⟨200, .fileRows (db.files.filter (fun f => f.user_id == uid))⟩, db)) db

/-- POST /api/files (SQLite variant, lines 253-259): no validation;
`req.file.filename` throws when no file was uploaded, and an absent
category is an undefined binding (both: 500, nothing inserted). -/
def postFiles (session : Option Nat) (file : Option String) (category : Field)
    (db : Db) : Resp × Db :=
  isAuthenticated session (fun uid db =>
    match file, category with
    | some fn, some c =>
      let filename := "/uploads/" ++ fn
      (⟨200, .successFile filename⟩,
       { db with
         files := db.files ++ [⟨db.nextFileId, uid, filename, some c⟩]
         nextFileId := db.nextFileId + 1 })
    | _, _ => (crashResp, db)) db

/-- DELETE /api/files/:id (SQLite variant, lines 261-273): looks up the
row by id AND user_id, fire-and-forgets an unlink of its backing file,
deletes the row and answers success whatever the unlink outcome. -/
def deleteFiles (session : Option Nat) (i : Nat) (unlinkOk : Bool)
    (s : Db × Fs) : Resp × Db × Fs :=
  isAuthenticated session (fun uid s =>
    let (db, fs) := s
    let fs2 := match db.files.find? (fun r => r.id == i && r.user_id == uid) with
      | some f => fsUnlink unlinkOk f.filename fs
      | none => fs
    (⟨200, .success⟩,
     { db with files := db.files.filter (fun r =>
         !(r.id == i && r.user_id == uid)) }, fs2)) s

/-- GET /api/resources (SQLite variant, lines 276-281). -/
def getResources (session : Option Nat) (db : Db) : Resp × Db :=
  isAuthenticated session (fun uid db =>
    (⟨200, .resourceRows (db.resources.filter (fun r => r.user_id == uid))⟩,
     db)) db

/-- POST /api/resources (SQLite variant, lines 290-302): validates that
title and link are truthy, else 400 and nothing inserted. -/
def postResources (session : Option Nat) (title lnk : Field)
    (file : Option String) (db : Db) : Resp × Db :=
  isAuthenticated session (fun uid db =>
    let image : Option String := file.map (fun fn => "/uploads/" ++ fn)
    if !(truthy title && truthy lnk) then
      (⟨400, .error "El título y el enlace son obligatorios"⟩, db)
    else
      (⟨200, .successId db.nextResourceId⟩,
       { db with
         resources := db.resources ++
           [⟨db.nextResourceId, uid, title.getD "", lnk.getD "", image⟩]
         nextResourceId := db.nextResourceId + 1 })) db

/-- PUT /api/resources/:id (SQLite variant, lines 304-324): validates
title and link; the image column is included only when a new file or a
truthy body image value is present; the row must match id AND user_id. -/
def putResources (session : Option Nat) (i : Nat) (title lnk : Field)
    (file : Option String) (bodyImage : Field) (db : Db) : Resp × Db :=
  isAuthenticated session (fun uid db =>
    let image : Option String :=
      match file with
      | some fn => some ("/uploads/" ++ fn)
      | none => orNull bodyImage
    if !(truthy title && truthy lnk) then
      (⟨400, .error "El título y el enlace son obligatorios"⟩, db)
    else
      (⟨200, .success⟩,
       { db with resources := db.resources.map (fun r =>
           if r.id == i && r.user_id == uid then
             { r with
               title := title.getD "", link := lnk.getD "",
               image := match image with
                 | some p => some p
                 | none => r.image }
           else r) })) db

/-- DELETE /api/resources/:id (SQLite variant, lines 326-339): looks up
the row by id AND user_id, fire-and-forgets an unlink of its image when it
has one, deletes the row and answers success whatever the unlink outcome. -/
def deleteResources (session : Option Nat) (i : Nat) (unlinkOk : Bool)
    (s : Db × Fs) : Resp × Db × Fs :=
  isAuthenticated session (fun uid s =>
    let (db, fs) := s
    let fs2 :=
      match db.resources.find? (fun r => r.id == i && r.user_id == uid) with
      | some r =>
        match r.image with
        | some img => fsUnlink unlinkOk img fs
        | none => fs
      | none => fs
    (⟨200, .success⟩,
     { db with resources := db.resources.filter (fun r =>
         !(r.id == i && r.user_id == uid)) }, fs2)) s

/-- GET /api/notes (SQLite variant, lines 342-346). -/
def getNotes (session : Option Nat) (db : Db) : Resp × Db :=
  isAuthenticated session (fun uid db =>
    (⟨200, .noteRows (db.notes.filter (fun n => n.user_id == uid))⟩, db)) db

/-- POST /api/notes (SQLite variant, lines 348-353): no validation; a
present content string (even empty) is inserted; an absent one is an
undefined binding (500, nothing inserted). -/
def postNotes (session : Option Nat) (content : Field) (db : Db) : Resp × Db :=
  isAuthenticated session (fun uid db =>
    match content with
    | some c =>
      (⟨200, .success⟩,
       { db with
         notes := db.notes ++ [⟨db.nextNoteId, uid, c⟩]
         nextNoteId := db.nextNoteId + 1 })
    | none => (crashResp, db)) db

/-- PUT /api/notes/:id (SQLite variant, lines 355-360): no validation;
updates the row matching id AND user_id. -/
def putNotes (session : Option Nat) (i : Nat) (content : Field) (db : Db) :
    Resp × Db :=
  isAuthenticated session (fun uid db =>
    match content with
    | some c =>
      (⟨200, .success⟩,
       { db with notes := db.notes.map (fun r =>
           if r.id == i && r.user_id == uid then { r with content := c }
           else r) })
    | none => (crashResp, db)) db

/-- DELETE /api/notes/:id (SQLite variant, lines 362-366). -/
def deleteNotes (session : Option Nat) (i : Nat) (db : Db) : Resp × Db :=
  isAuthenticated session (fun uid db =>
    (⟨200, .success⟩,
     { db with notes := db.notes.filter (fun r =>
         !(r.id == i && r.user_id == uid)) })) db

/-- GET /api/topics (SQLite variant, lines 369-374): no owner filter. -/
def getTopics (session : Option Nat) (db : Db) : Resp × Db :=
  isAuthenticated session (fun _ db => (⟨200, .topicRows db.topics⟩, db)) db

/-- POST /api/topics (SQLite variant, lines 383-389): no validation; the
four body fields are bound raw (an absent one throws: 500), an empty
string is inserted as supplied. -/
def postTopics (session : Option Nat) (subject subtopic explanation lnk : Field)
    (file : Option String) (db : Db) : Resp × Db :=
  isAuthenticated session (fun _ db =>
    let image : Option String := file.map (fun fn => "/uploads/" ++ fn)
    match subject, subtopic, explanation, lnk with
    | some s1, some s2, some s3, some l =>
      (⟨200, .success⟩,
       { db with
         topics := db.topics ++
           [⟨db.nextTopicId, some s1, some s2, some s3, image, some l⟩]
         nextTopicId := db.nextTopicId + 1 })
    | _, _, _, _ => (crashResp, db)) db

/-- PUT /api/topics/:id (SQLite variant, lines 391-405): no validation and
no owner check; the image column is included only when a new file or a
truthy body image value is present. -/
def putTopics (session : Option Nat) (i : Nat)
    (subject subtopic explanation lnk : Field) (file : Option String)
    (bodyImage : Field) (db : Db) : Resp × Db :=
  isAuthenticated session (fun _ db =>
    let image : Option String :=
      match file with
      | some fn => some ("/uploads/" ++ fn)
      | none => orNull bodyImage
    match subject, subtopic, explanation, lnk with
    | some s1, some s2, some s3, some l =>
      (⟨200, .success⟩,
       { db with topics := db.topics.map (fun r =>
           if r.id == i then
             { r with
               subject := some s1, subtopic := some s2,
               explanation := some s3, link := some l,
               image := match image with
                 | some p => some p
                 | none => r.image }
           else r) })
    | _, _, _, _ => (crashResp, db)) db

end Sqlite

namespace Pg

/-- POST /api/register (PostgreSQL variant, lines 622-642): same
validation as the SQLite variant; a UNIQUE violation is caught and
answered with the generic 500 message of this variant. -/
def register (today : String) (username name email password phone socials : Field)
    (file : Option String) (db : Db) : Resp × Db :=
  let profile_pic : Option String := file.map (fun fn => "/uploads/" ++ fn)
  if !(truthy username && truthy name && truthy email && truthy password) then
    (⟨400, .error "Faltan campos obligatorios"⟩, db)
  else
    let u := username.getD ""
    let e := email.getD ""
    if db.users.any (fun w => w.username == u || w.email == some e) then
      (⟨500, .error "Error en el servidor al registrar usuario"⟩, db)
    else
      (⟨200, .success⟩,
       { db with
         users := db.users ++ [⟨db.nextUserId, u, some (name.getD ""), some e,
           bcryptHash (password.getD ""), today, profile_pic,
           orNull phone, orNull socials⟩]
         nextUserId := db.nextUserId + 1 })

/-- POST /api/login (PostgreSQL variant, lines 645-670): validates that
username and password are present, distinguishes a missing user (401) from
a wrong password (401).  Returns the response and the session user id
after the request. -/
def login (username password : String) (db : Db) : Resp × Option Nat :=
  if username == "" || password == "" then
    (⟨400, .error "Faltan username o password"⟩, none)
  else
    match db.users.find? (fun w => w.username == username) with
    | none => (⟨401, .error "Usuario no encontrado"⟩, none)
    | some u =>
      if bcryptCompare password u.password then
        (⟨200, .redirect "/home.html"⟩, some u.id)
      else
        (⟨401, .error "Contraseña incorrecta"⟩, none)

/-- GET /api/tasks (PostgreSQL variant, lines 722-730). -/
def getTasks (session : Option Nat) (db : Db) : Resp × Db :=
  isAuthenticated session (fun uid db =>
    (⟨200, .taskRows (db.tasks.filter (fun t => t.user_id == uid))⟩, db)) db

/-- POST /api/tasks (PostgreSQL variant, lines 732-749): validates that
title and category are truthy, else 400 and nothing inserted. -/
def postTasks (session : Option Nat) (title category : Field) (db : Db) :
    Resp × Db :=
  isAuthenticated session (fun uid db =>
    if !(truthy title && truthy category) then
      (⟨400, .error "Faltan title o category"⟩, db)
    else
      (⟨200, .success⟩,
       { db with
         tasks := db.tasks ++
           [⟨db.nextTaskId, uid, some (title.getD ""), some (category.getD ""), 0⟩]
         nextTaskId := db.nextTaskId + 1 })) db

/-- PUT /api/tasks/:id (PostgreSQL variant, lines 751-768): validates that
title and category are truthy and completed is defined, else 400; updates
the row matching id AND user_id. -/
def putTasks (session : Option Nat) (i : Nat) (title category : Field)
    (completed : Option Nat) (db : Db) : Resp × Db :=
  isAuthenticated session (fun uid db =>
    if !(truthy title && truthy category) || completed.isNone then
      (⟨400, .error "Faltan title, category o completed"⟩, db)
    else
      (⟨200, .success⟩,
       { db with tasks := db.tasks.map (fun r =>
           if r.id == i && r.user_id == uid then
             { r with
               title := some (title.getD ""), category := some (category.getD ""),
               completed := completed.getD 0 }
           else r) })) db

/-- DELETE /api/tasks/:id (PostgreSQL variant, lines 770-779). -/
def deleteTasks (session : Option Nat) (i : Nat) (db : Db) : Resp × Db :=
  isAuthenticated session (fun uid db =>
    (⟨200, .success⟩,
     { db with tasks := db.tasks.filter (fun r =>
         !(r.id == i && r.user_id == uid)) })) db

/-- POST /api/files (PostgreSQL variant, lines 792-810): validates that a
file was uploaded and category is truthy, else 400 and nothing inserted. -/
def postFiles (session : Option Nat) (file : Option String) (category : Field)
    (db : Db) : Resp × Db :=
  isAuthenticated session (fun uid db =>
    if file.isNone || !(truthy category) then
      (⟨400, .error "Faltan archivo o category"⟩, db)
    else
      let filename := "/uploads/" ++ file.getD ""
      (⟨200, .successFile filename⟩,
       { db with
         files := db.files ++ [⟨db.nextFileId, uid, filename, some (category.getD "")⟩]
         nextFileId := db.nextFileId + 1 })) db

/-- POST /api/resources (PostgreSQL variant, lines 858-877): validates
title and link, else 400 and nothing inserted. -/
def postResources (session : Option Nat) (title lnk : Field)
    (file : Option String) (db : Db) : Resp × Db :=
  isAuthenticated session (fun uid db =>
    let image : Option String := file.map (fun fn => "/uploads/" ++ fn)
    if !(truthy title && truthy lnk) then
      (⟨400, .error "El título y el enlace son obligatorios"⟩, db)
    else
      (⟨200, .successId db.nextResourceId⟩,
       { db with
         resources := db.resources ++
           [⟨db.nextResourceId, uid, title.getD "", lnk.getD "", image⟩]
         nextResourceId := db.nextResourceId + 1 })) db

/-- PUT /api/resources/:id (PostgreSQL variant, lines 879-903): validates
title and link; the image column is included only when a new file or a
truthy body image value is present; the row must match id AND user_id. -/
def putResources (session : Option Nat) (i : Nat) (title lnk : Field)
    (file : Option String) (bodyImage : Field) (db : Db) : Resp × Db :=
  isAuthenticated session (fun uid db =>
    let image : Option String :=
      match file with
      | some fn => some ("/uploads/" ++ fn)
      | none => orNull bodyImage
    if !(truthy title && truthy lnk) then
      (⟨400, .error "El título y el enlace son obligatorios"⟩, db)
    else
      (⟨200, .success⟩,
       { db with resources := db.resources.map (fun r =>
           if r.id == i && r.user_id == uid then
             { r with
               title := title.getD "", link := lnk.getD "",
               image := match image with
                 | some p => some p
                 | none => r.image }
           else r) })) db

/-- POST /api/notes (PostgreSQL variant, lines 935-952): validates that
content is truthy, else 400 and nothing inserted. -/
def postNotes (session : Option Nat) (content : Field) (db : Db) : Resp × Db :=
  isAuthenticated session (fun uid db =>
    if !(truthy content) then
      (⟨400, .error "Falta content"⟩, db)
    else
      (⟨200, .success⟩,
       { db with
         notes := db.notes ++ [⟨db.nextNoteId, uid, content.getD ""⟩]
         nextNoteId := db.nextNoteId + 1 })) db

/-- PUT /api/notes/:id (PostgreSQL variant, lines 954-971): validates that
content is truthy; updates the row matching id AND user_id. -/
def putNotes (session : Option Nat) (i : Nat) (content : Field) (db : Db) :
    Resp × Db :=
  isAuthenticated session (fun uid db =>
    if !(truthy content) then
      (⟨400, .error "Falta content"⟩, db)
    else
      (⟨200, .success⟩,
       { db with notes := db.notes.map (fun r =>
           if r.id == i && r.user_id == uid then
             { r with content := content.getD "" }
           else r) })) db

/-- DELETE /api/notes/:id (PostgreSQL variant, lines 973-982). -/
def deleteNotes (session : Option Nat) (i : Nat) (db : Db) : Resp × Db :=
  isAuthenticated session (fun uid db =>
    (⟨200, .success⟩,
     { db with notes := db.notes.filter (fun r =>
         !(r.id == i && r.user_id == uid)) })) db

/-- POST /api/topics (PostgreSQL variant, lines 1011-1029): validates
subject, subtopic and explanation, else 400 and nothing inserted; link is
bound as sent (node-postgres sends an absent value as NULL). -/
def postTopics (session : Option Nat) (subject subtopic explanation lnk : Field)
    (file : Option String) (db : Db) : Resp × Db :=
  isAuthenticated session (fun _ db =>
    let image : Option String := file.map (fun fn => "/uploads/" ++ fn)
    if !(truthy subject && truthy subtopic && truthy explanation) then
      (⟨400, .error "Faltan subject, subtopic o explanation"⟩, db)
    else
      (⟨200, .success⟩,
       { db with
         topics := db.topics ++
           [⟨db.nextTopicId, some (subject.getD ""), some (subtopic.getD ""),
             some (explanation.getD ""), image, lnk⟩]
         nextTopicId := db.nextTopicId + 1 })) db

/-- PUT /api/topics/:id (PostgreSQL variant, lines 1031-1054): validates
subject, subtopic and explanation; no owner check; the image column is
included only when a new file or a truthy body image value is present. -/
def putTopics (session : Option Nat) (i : Nat)
    (subject subtopic explanation lnk : Field) (file : Option String)
    (bodyImage : Field) (db : Db) : Resp × Db :=
  isAuthenticated session (fun _ db =>
    let image : Option String :=
      match file with
      | some fn => some ("/uploads/" ++ fn)
      | none => orNull bodyImage
    if !(truthy subject && truthy subtopic && truthy explanation) then
      (⟨400, .error "Faltan subject, subtopic o explanation"⟩, db)
    else
      (⟨200, .success⟩,
       { db with topics := db.topics.map (fun r =>
           if r.id == i then
             { r with
               subject := some (subject.getD ""), subtopic := some (subtopic.getD ""),
               explanation := some (explanation.getD ""), link := lnk,
               image := match image with
                 | some p => some p
                 | none => r.image }
           else r) })) db

end Pg

/-- Model of a decimal digit as a character, as JS number printing emits
it. -/
def decDigitChar (d : Nat) : Char := Char.ofNat (48 + d)

/-- Little-endian decimal digit characters of `n`, with explicit fuel so
the recursion is structural. -/
def toDecimalAux : Nat → Nat → List Char
  | 0, _ => []
  | fuel + 1, n =>
    if n = 0 then [] else decDigitChar (n % 10) :: toDecimalAux fuel (n / 10)

/-- Model of the JS number-to-string coercion applied to the integer
`Date.now()` value. -/
def jsNumToString (n : Nat) : String :=
  if n = 0 then "0" else ⟨(toDecimalAux n n).reverse⟩

/-- The multer `diskStorage` filename callback (both variants, lines 55-59
and 496-500): `Date.now() + "-" + file.originalname`. -/
def genFilename (now : Nat) (originalname : String) : String :=
  jsNumToString now ++ "-" ++ originalname

/-- One store call of the Upload Handler: `callIdx` distinguishes call
events; `now` is the `Date.now()` value the call observes (millisecond
resolution), `originalname` the uploaded file's client-side name. -/
structure StoreCall where
  callIdx : Nat
  now : Nat
  originalname : String
deriving DecidableEq, Repr

/-- The stored filename a store call generates. -/
def storedName (c : StoreCall) : String := genFilename c.now c.originalname

/-- Inverse of `decDigitChar` on digits. -/
def charToDec (c : Char) : Nat := c.toNat - 48

/-- Value of a little-endian decimal digit character list. -/
def fromDecimal : List Char → Nat
  | [] => 0
  | c :: cs => charToDec c + 10 * fromDecimal cs

/-- Sample empty database (all autoincrement counters at 1). -/
def db0 : Db := ⟨[], 1, [], 1, [], 1, [], 1, [], 1, [], 1⟩

/-- Sample user with id 1. -/
def userA : UserRow :=
  ⟨1, "alice", some "Alice", some "a@x.com", bcryptHash "pw1", "2026-01-01",
   none, none, none⟩

/-- Sample user with id 2. -/
def userB : UserRow :=
  ⟨2, "bob", some "Bob", some "b@x.com", bcryptHash "pw2", "2026-01-01",
   none, none, none⟩

/-- Sample database in which every owner-scoped record (id 1 in each
table) belongs to user 2. -/
def dbW : Db :=
  ⟨[userA, userB], 3,
   [⟨1, 2, some "t", some "c", 0⟩], 2,
   [⟨1, 2, "/uploads/f.txt", some "c"⟩], 2,
   [⟨1, 2, "T", "https://x.com", some "/uploads/i.png"⟩], 2,
   [⟨1, 2, "note"⟩], 2,
   [], 1⟩

/-- Mapping a function that fixes every member of a list is the
identity. -/
theorem map_eq_self_of_mem {α : Type} {l : List α} {f : α → α}
    (h : ∀ a ∈ l, f a = a) : l.map f = l := by
  induction l with
  | nil => rfl
  | cons a t ih =>
    simp only [List.map_cons, h a (by simp), List.cons.injEq, true_and]
    exact ih fun b hb => h b (by simp [hb])

/-- C2: session gating.  With no session user id every protected route of
both variants answers 401 with the error object `No autorizado` and
leaves the state untouched, whatever the downstream handler would have
done; with a (nonzero) session user id the downstream handler runs with
exactly that id. -/
theorem C2_session_gating :
    (unauthorized.status = 401 ∧ unauthorized.body = .error "No autorizado")
    ∧ (∀ (σ : Type) (h : Nat → σ → Resp × σ) (s : σ),
        isAuthenticated none h s = (unauthorized, s))
    ∧ (∀ (σ : Type) (h h2 : Nat → σ → Resp × σ) (s : σ),
        isAuthenticated none h s = isAuthenticated none h2 s)
    ∧ (∀ (σ : Type) (h : Nat → σ → Resp × σ) (s : σ) (uid : Nat),
        uid ≠ 0 → isAuthenticated (some uid) h s = h uid s)
    ∧ (∀ db, Sqlite.getUser none db = (unauthorized, db))
    ∧ (∀ db n e p so f bp,
        Sqlite.userUpdate none n e p so f bp db = (unauthorized, db))
    ∧ (∀ db, Sqlite.getTasks none db = (unauthorized, db))
    ∧ (∀ db t c, Sqlite.postTasks none t c db = (unauthorized, db))
    ∧ (∀ db i t c k, Sqlite.putTasks none i t c k db = (unauthorized, db))
    ∧ (∀ db i, Sqlite.deleteTasks none i db = (unauthorized, db))
    ∧ (∀ db, Sqlite.getFiles none db = (unauthorized, db))
    ∧ (∀ db f c, Sqlite.postFiles none f c db = (unauthorized, db))
    ∧ (∀ s i ok, Sqlite.deleteFiles none i ok s = (unauthorized, s))
    ∧ (∀ db, Sqlite.getResources none db = (unauthorized, db))
    ∧ (∀ db t l f, Sqlite.postResources none t l f db = (unauthorized, db))
    ∧ (∀ db i t l f bi,
        Sqlite.putResources none i t l f bi db = (unauthorized, db))
    ∧ (∀ s i ok, Sqlite.deleteResources none i ok s = (unauthorized, s))
    ∧ (∀ db, Sqlite.getNotes none db = (unauthorized, db))
    ∧ (∀ db c, Sqlite.postNotes none c db = (unauthorized, db))
    ∧ (∀ db i c, Sqlite.putNotes none i c db = (unauthorized, db))
    ∧ (∀ db i, Sqlite.deleteNotes none i db = (unauthorized, db))
    ∧ (∀ db, Sqlite.getTopics none db = (unauthorized, db))
    ∧ (∀ db s1 s2 s3 l f,
        Sqlite.postTopics none s1 s2 s3 l f db = (unauthorized, db))
    ∧ (∀ db i s1 s2 s3 l f bi,
        Sqlite.putTopics none i s1 s2 s3 l f bi db = (unauthorized, db))
    ∧ (∀ db, Pg.getTasks none db = (unauthorized, db))
    ∧ (∀ db t c, Pg.postTasks none t c db = (unauthorized, db))
    ∧ (∀ db i t c k, Pg.putTasks none i t c k db = (unauthorized, db))
    ∧ (∀ db i, Pg.deleteTasks none i db = (unauthorized, db))
    ∧ (∀ db f c, Pg.postFiles none f c db = (unauthorized, db))
    ∧ (∀ db t l f, Pg.postResources none t l f db = (unauthorized, db))
    ∧ (∀ db i t l f bi, Pg.putResources none i t l f bi db = (unauthorized, db))
    ∧ (∀ db c, Pg.postNotes none c db = (unauthorized, db))
    ∧ (∀ db i c, Pg.putNotes none i c db = (unauthorized, db))
    ∧ (∀ db i, Pg.deleteNotes none i db = (unauthorized, db))
    ∧ (∀ db s1 s2 s3 l f, Pg.postTopics none s1 s2 s3 l f db = (unauthorized, db))
    ∧ (∀ db i s1 s2 s3 l f bi,
        Pg.putTopics none i s1 s2 s3 l f bi db = (unauthorized, db)) := by
  refine ⟨⟨rfl, rfl⟩, fun σ h s => rfl, fun σ h h2 s => rfl,
    fun σ h s uid hu => by simp [isAuthenticated, hu], ?_⟩
  repeat' constructor
  all_goals intros; rfl

/-- C1: tenant isolation for owner-scoped records.  For users A and B with
A distinct from B, when every row with the targeted record id belongs to
B, the list routes called by A return only rows owned by A (never a row of
B), and every update or delete A issues with that record id matches no row
and leaves the database (and, for the file-backed kinds, the uploads
directory) completely unchanged, because each statement filters on both
the record id and the session user id. -/
theorem C1_tenant_isolation
    (db : Db) (fs : Fs) (A B i : Nat) (hAB : A ≠ B)
    (ht : ∀ r ∈ db.tasks, r.id = i → r.user_id = B)
    (hf : ∀ r ∈ db.files, r.id = i → r.user_id = B)
    (hr : ∀ r ∈ db.resources, r.id = i → r.user_id = B)
    (hn : ∀ r ∈ db.notes, r.id = i → r.user_id = B)
    (title category content tl lk bi : Field) (k : Option Nat)
    (f : Option String) (ok : Bool) :
    (∀ rows, (Sqlite.getTasks (some A) db).1.body = .taskRows rows →
       ∀ r ∈ rows, r.user_id = A ∧ r.user_id ≠ B)
    ∧ (∀ rows, (Sqlite.getFiles (some A) db).1.body = .fileRows rows →
       ∀ r ∈ rows, r.user_id = A ∧ r.user_id ≠ B)
    ∧ (∀ rows, (Sqlite.getResources (some A) db).1.body = .resourceRows rows →
       ∀ r ∈ rows, r.user_id = A ∧ r.user_id ≠ B)
    ∧ (∀ rows, (Sqlite.getNotes (some A) db).1.body = .noteRows rows →
       ∀ r ∈ rows, r.user_id = A ∧ r.user_id ≠ B)
    ∧ (Sqlite.putTasks (some A) i title category k db).2 = db
    ∧ (Sqlite.deleteTasks (some A) i db).2 = db
    ∧ (Sqlite.deleteFiles (some A) i ok (db, fs)).2 = (db, fs)
    ∧ (Sqlite.putResources (some A) i tl lk f bi db).2 = db
    ∧ (Sqlite.deleteResources (some A) i ok (db, fs)).2 = (db, fs)
    ∧ (Sqlite.putNotes (some A) i content db).2 = db
    ∧ (Sqlite.deleteNotes (some A) i db).2 = db
    ∧ (Pg.putTasks (some A) i title category k db).2 = db
    ∧ (Pg.deleteNotes (some A) i db).2 = db := by
  have hAB' : B ≠ A := fun h => hAB h.symm
  by_cases hA : A = 0
  · subst hA
    refine ⟨?_, ?_, ?_, ?_, rfl, rfl, rfl, rfl, rfl, rfl, rfl, rfl, rfl⟩ <;>
      · intro rows hrows
        simp [Sqlite.getTasks, Sqlite.getFiles, Sqlite.getResources,
          Sqlite.getNotes, isAuthenticated, unauthorized] at hrows
  · have noMatchT : ∀ r ∈ db.tasks, (r.id == i && r.user_id == A) = false := by
      intro r hrm
      by_cases hid : r.id = i
      · simp [ht r hrm hid, hAB']
      · simp [hid]
    have noMatchF : ∀ r ∈ db.files, (r.id == i && r.user_id == A) = false := by
      intro r hrm
      by_cases hid : r.id = i
      · simp [hf r hrm hid, hAB']
      · simp [hid]
    have noMatchR : ∀ r ∈ db.resources, (r.id == i && r.user_id == A) = false := by
      intro r hrm
      by_cases hid : r.id = i
      · simp [hr r hrm hid, hAB']
      · simp [hid]
    have noMatchN : ∀ r ∈ db.notes, (r.id == i && r.user_id == A) = false := by
      intro r hrm
      by_cases hid : r.id = i
      · simp [hn r hrm hid, hAB']
      · simp [hid]
    refine ⟨?_, ?_, ?_, ?_, ?_, ?_, ?_, ?_, ?_, ?_, ?_, ?_, ?_⟩
    · intro rows hrows
      simp only [Sqlite.getTasks, isAuthenticated, hA, if_false] at hrows
      injection hrows with hrows
      subst hrows
      intro r hrm
      have := (List.mem_filter.mp hrm).2
      simp at this
      exact ⟨this, this ▸ hAB⟩
    · intro rows hrows
      simp only [Sqlite.getFiles, isAuthenticated, hA, if_false] at hrows
      injection hrows with hrows
      subst hrows
      intro r hrm
      have := (List.mem_filter.mp hrm).2
      simp at this
      exact ⟨this, this ▸ hAB⟩
    · intro rows hrows
      simp only [Sqlite.getResources, isAuthenticated, hA, if_false] at hrows
      injection hrows with hrows
      subst hrows
      intro r hrm
      have := (List.mem_filter.mp hrm).2
      simp at this
      exact ⟨this, this ▸ hAB⟩
    · intro rows hrows
      simp only [Sqlite.getNotes, isAuthenticated, hA, if_false] at hrows
      injection hrows with hrows
      subst hrows
      intro r hrm
      have := (List.mem_filter.mp hrm).2
      simp at this
      exact ⟨this, this ▸ hAB⟩
    · simp only [Sqlite.putTasks, isAuthenticated, hA, if_false]
      cases title <;> cases category <;> cases k <;> try rfl
      exact congrArg (fun l => ({ db with tasks := l } : Db))
        (map_eq_self_of_mem fun r hrm => by simp [noMatchT r hrm])
    · simp only [Sqlite.deleteTasks, isAuthenticated, hA, if_false]
      exact congrArg (fun l => ({ db with tasks := l } : Db))
        (List.filter_eq_self.mpr fun r hrm => by simp [noMatchT r hrm])
    · simp only [Sqlite.deleteFiles, isAuthenticated, hA, if_false]
      have hfind : db.files.find? (fun r => r.id == i && r.user_id == A) = none :=
        List.find?_eq_none.mpr fun r hrm => by simp [noMatchF r hrm]
      simp only [hfind]
      exact congrArg (fun l => (({ db with files := l } : Db), fs))
        (List.filter_eq_self.mpr fun r hrm => by simp [noMatchF r hrm])
    · simp only [Sqlite.putResources, isAuthenticated, hA, if_false]
      cases hv : (truthy tl && truthy lk)
      · simp [hv]
      · simp only [hv, Bool.not_true, Bool.false_eq_true, if_false]
        exact congrArg (fun l => ({ db with resources := l } : Db))
          (map_eq_self_of_mem fun r hrm => by simp [noMatchR r hrm])
    · simp only [Sqlite.deleteResources, isAuthenticated, hA, if_false]
      have hfind : db.resources.find? (fun r => r.id == i && r.user_id == A) = none :=
        List.find?_eq_none.mpr fun r hrm => by simp [noMatchR r hrm]
      simp only [hfind]
      exact congrArg (fun l => (({ db with resources := l } : Db), fs))
        (List.filter_eq_self.mpr fun r hrm => by simp [noMatchR r hrm])
    · simp only [Sqlite.putNotes, isAuthenticated, hA, if_false]
      cases content <;> try rfl
      exact congrArg (fun l => ({ db with notes := l } : Db))
        (map_eq_self_of_mem fun r hrm => by simp [noMatchN r hrm])
    · simp only [Sqlite.deleteNotes, isAuthenticated, hA, if_false]
      exact congrArg (fun l => ({ db with notes := l } : Db))
        (List.filter_eq_self.mpr fun r hrm => by simp [noMatchN r hrm])
    · simp only [Pg.putTasks, isAuthenticated, hA, if_false]
      cases hv : ((!(truthy title && truthy category)) || k.isNone)
      · simp only [hv, Bool.false_eq_true, if_false]
        exact congrArg (fun l => ({ db with tasks := l } : Db))
          (map_eq_self_of_mem fun r hrm => by simp [noMatchT r hrm])
      · simp [hv]
    · simp only [Pg.deleteNotes, isAuthenticated, hA, if_false]
      exact congrArg (fun l => ({ db with notes := l } : Db))
        (List.filter_eq_self.mpr fun r hrm => by simp [noMatchN r hrm])

/-- Witness for C1 at a concrete input: user 1 issues a delete of note 1,
which belongs to user 2, against the sample database; nothing changes. -/
theorem C1_tenant_isolation_witness :
    (Sqlite.deleteNotes (some 1) 1 dbW).2 = dbW :=
  (C1_tenant_isolation dbW [] 1 2 1 (by decide)
    (by decide) (by decide) (by decide) (by decide)
    none none none none none none none none true).2.2.2.2.2.2.2.2.2.2.1

/-- C3 counterexample: in the SQLite variant an authenticated Note create
with empty content does not fail with 400 — the row is persisted and the
response is success, contradicting the claim at this concrete input. -/
theorem C3_counterexample :
    (Sqlite.postNotes (some 1) (some "") db0).1 = ⟨200, .success⟩
    ∧ (Sqlite.postNotes (some 1) (some "") db0).2.notes = [⟨1, 1, ""⟩] := by
  exact ⟨rfl, rfl⟩

/-- C3 amended: create validation behaves as claimed in the PostgreSQL
variant for all four kinds, and in the SQLite variant for Resource
creates; the SQLite variant's Task and Note creates perform no validation,
so a present-but-empty required field is persisted and the response is
success. -/
theorem C3_create_validation_amended
    (db : Db) (uid : Nat) (huid : uid ≠ 0)
    (title category content tl lk cat : Field) (f : Option String)
    (hmt : (truthy title && truthy category) = false)
    (hmr : (truthy tl && truthy lk) = false)
    (hmc : truthy content = false)
    (hmf : (f.isNone || !(truthy cat)) = true)
    (c2 : String) :
    Pg.postTasks (some uid) title category db
      = (⟨400, .error "Faltan title o category"⟩, db)
    ∧ Pg.postResources (some uid) tl lk f db
      = (⟨400, .error "El título y el enlace son obligatorios"⟩, db)
    ∧ Pg.postNotes (some uid) content db = (⟨400, .error "Falta content"⟩, db)
    ∧ Pg.postFiles (some uid) f cat db
      = (⟨400, .error "Faltan archivo o category"⟩, db)
    ∧ Sqlite.postResources (some uid) tl lk f db
      = (⟨400, .error "El título y el enlace son obligatorios"⟩, db)
    ∧ Sqlite.postNotes (some uid) (some "") db
      = (⟨200, .success⟩,
         { db with notes := db.notes ++ [⟨db.nextNoteId, uid, ""⟩]
                   nextNoteId := db.nextNoteId + 1 })
    ∧ Sqlite.postTasks (some uid) (some "") (some c2) db
      = (⟨200, .success⟩,
         { db with tasks := db.tasks ++ [⟨db.nextTaskId, uid, some "", some c2, 0⟩]
                   nextTaskId := db.nextTaskId + 1 }) :=
  ⟨by simp [Pg.postTasks, isAuthenticated, huid, hmt],
   by simp [Pg.postResources, isAuthenticated, huid, hmr],
   by simp [Pg.postNotes, isAuthenticated, huid, hmc],
   by simp [Pg.postFiles, isAuthenticated, huid, hmf],
   by simp [Sqlite.postResources, isAuthenticated, huid, hmr],
   by simp [Sqlite.postNotes, isAuthenticated, huid],
   by simp [Sqlite.postTasks, isAuthenticated, huid]⟩

/-- Witness for C3 at a concrete input: in the SQLite variant a Task
create with an empty title is persisted with success. -/
theorem C3_create_validation_amended_witness :
    Sqlite.postTasks (some 1) (some "") (some "x") db0
      = (⟨200, .success⟩,
         { db0 with tasks := db0.tasks ++ [⟨db0.nextTaskId, 1, some "", some "x", 0⟩]
                    nextTaskId := db0.nextTaskId + 1 }) :=
  (C3_create_validation_amended db0 1 (by decide) none none none none none none
    none (by decide) (by decide) (by decide) (by decide) "x").2.2.2.2.2.2

/-- C4 counterexample: a second registration with an already-taken
username is rejected by the UNIQUE constraint but the handler answers with
the generic 500 error of its catch block, not a ConflictError (400/409);
the first stored record is unchanged. -/
theorem C4_counterexample :
    (Sqlite.register "d1" (some "alice") (some "Alice") (some "a@x.com")
        (some "pw1") none none none db0).1 = ⟨200, .success⟩
    ∧ (Sqlite.register "d2" (some "alice") (some "Alicia") (some "other@x.com")
        (some "pw2") none none none
        (Sqlite.register "d1" (some "alice") (some "Alice") (some "a@x.com")
          (some "pw1") none none none db0).2).1
      = ⟨500, .error "Error en el servidor al hashear la contraseña"⟩
    ∧ (Sqlite.register "d2" (some "alice") (some "Alicia") (some "other@x.com")
        (some "pw2") none none none
        (Sqlite.register "d1" (some "alice") (some "Alice") (some "a@x.com")
          (some "pw1") none none none db0).2).2
      = (Sqlite.register "d1" (some "alice") (some "Alice") (some "a@x.com")
          (some "pw1") none none none db0).2 := by
  refine ⟨rfl, ?_, ?_⟩ <;> rfl

/-- C4 amended: in both variants the first registration with valid,
unclaimed credentials succeeds and persists the user; a second
registration with the same username is rejected by the unique constraint,
but surfaces as the generic 500 error of the catch block rather than a
distinguished ConflictError, and the stored records are unchanged. -/
theorem C4_duplicate_registration_amended
    (db : Db) (d1 d2 : String) (u n e p n2 e2 p2 : String)
    (hu : u ≠ "") (hn : n ≠ "") (he : e ≠ "") (hp : p ≠ "")
    (hn2 : n2 ≠ "") (he2 : e2 ≠ "") (hp2 : p2 ≠ "")
    (hfree : ∀ w ∈ db.users, w.username ≠ u ∧ w.email ≠ some e) :
    (Sqlite.register d1 (some u) (some n) (some e) (some p) none none none db).1
      = ⟨200, .success⟩
    ∧ (Sqlite.register d1 (some u) (some n) (some e) (some p) none none none db).2.users
      = db.users ++ [⟨db.nextUserId, u, some n, some e, bcryptHash p, d1, none, none, none⟩]
    ∧ Sqlite.register d2 (some u) (some n2) (some e2) (some p2) none none none
        (Sqlite.register d1 (some u) (some n) (some e) (some p) none none none db).2
      = (⟨500, .error "Error en el servidor al hashear la contraseña"⟩,
         (Sqlite.register d1 (some u) (some n) (some e) (some p) none none none db).2)
    ∧ Pg.register d2 (some u) (some n2) (some e2) (some p2) none none none
        (Pg.register d1 (some u) (some n) (some e) (some p) none none none db).2
      = (⟨500, .error "Error en el servidor al registrar usuario"⟩,
         (Pg.register d1 (some u) (some n) (some e) (some p) none none none db).2) := by
  have hany : db.users.any (fun w => w.username == u || w.email == some e) = false := by
    rw [List.any_eq_false]
    intro w hw
    simp [(hfree w hw).1, (hfree w hw).2]
  have hreg1 : Sqlite.register d1 (some u) (some n) (some e) (some p) none none none db
      = (⟨200, .success⟩,
         { db with
           users := db.users ++
             [⟨db.nextUserId, u, some n, some e, bcryptHash p, d1, none, none, none⟩]
           nextUserId := db.nextUserId + 1 }) := by
    simp [Sqlite.register, truthy, hu, hn, he, hp, hany, orNull]
  have hreg1p : Pg.register d1 (some u) (some n) (some e) (some p) none none none db
      = (⟨200, .success⟩,
         { db with
           users := db.users ++
             [⟨db.nextUserId, u, some n, some e, bcryptHash p, d1, none, none, none⟩]
           nextUserId := db.nextUserId + 1 }) := by
    simp [Pg.register, truthy, hu, hn, he, hp, hany, orNull]
  refine ⟨?_, ?_, ?_, ?_⟩
  · rw [hreg1]
  · rw [hreg1]
  · rw [hreg1]
    simp [Sqlite.register, truthy, hu, hn2, he2, hp2, List.any_append]
  · rw [hreg1p]
    simp [Pg.register, truthy, hu, hn2, he2, hp2, List.any_append]

/-- Witness for C4 at a concrete input: registering alice twice on the
empty database; the second attempt answers 500 and changes nothing. -/
theorem C4_duplicate_registration_amended_witness :
    Sqlite.register "d2" (some "alice") (some "Alicia") (some "o@x.com")
        (some "pw2") none none none
        (Sqlite.register "d1" (some "alice") (some "Alice") (some "a@x.com")
          (some "pw1") none none none db0).2
      = (⟨500, .error "Error en el servidor al hashear la contraseña"⟩,
         (Sqlite.register "d1" (some "alice") (some "Alice") (some "a@x.com")
           (some "pw1") none none none db0).2) :=
  (C4_duplicate_registration_amended db0 "d1" "d2" "alice" "Alice" "a@x.com" "pw1"
    "Alicia" "o@x.com" "pw2" (by decide) (by decide) (by decide) (by decide)
    (by decide) (by decide) (by decide) (by decide)).2.2.1

/-- C5: login failure behavior at concrete inputs.  In the SQLite variant
a login with a nonexistent username crashes the handler (the code reads
`user.password` on undefined before its own `!user` check can run), so
Express answers 500 with its default error page instead of an auth error;
a wrong password gets the 400 `Credenciales inválidas` JSON error.  The
PostgreSQL variant answers 401 for both.  In every case no session is
created. -/
theorem C5_login_failures :
    Sqlite.login "ghost" "x" dbW = (crashResp, none)
    ∧ Sqlite.login "alice" "wrong" dbW
      = (⟨400, .error "Credenciales inválidas"⟩, none)
    ∧ Pg.login "ghost" "x" dbW = (⟨401, .error "Usuario no encontrado"⟩, none)
    ∧ Pg.login "alice" "wrong" dbW
      = (⟨401, .error "Contraseña incorrecta"⟩, none)
    ∧ crashResp.status = 500 ∧ crashResp.body = .crash := by
  refine ⟨?_, ?_, ?_, ?_, rfl, rfl⟩ <;> rfl

/-- Mapping a function through a projection that it preserves on every
member leaves the projected list unchanged. -/
theorem map_comp_congr {α β : Type} {l : List α} {f : α → α} {g : α → β}
    (h : ∀ a ∈ l, g (f a) = g a) : (l.map f).map g = l.map g := by
  induction l with
  | nil => rfl
  | cons a t ih =>
    simp only [List.map_cons, h a (by simp), List.cons.injEq, true_and]
    exact ih fun b hb => h b (by simp [hb])

/-- C6: partial updates preserve unsupplied fields.  Updating a resource
without a new image file and without a truthy body image value leaves
every stored (id, image) pair unchanged in both variants; a Task update
that omits one of title, category or completed changes nothing at all
(the SQLite variant throws on the undefined binding, the PostgreSQL
variant rejects it with 400), and likewise a Note update without
content — so in every case a field not supplied keeps its stored value. -/
theorem C6_partial_update_frame
    (db : Db) (uid i : Nat)
    (title lk bodyImage : Field) (hbi : truthy bodyImage = false)
    (t c : Field) (k : Option Nat)
    (honefield : t = none ∨ c = none ∨ k = none) :
    ((Sqlite.putResources (some uid) i title lk none bodyImage db).2.resources.map
        (fun r => (r.id, r.image))
      = db.resources.map (fun r => (r.id, r.image)))
    ∧ ((Pg.putResources (some uid) i title lk none bodyImage db).2.resources.map
        (fun r => (r.id, r.image))
      = db.resources.map (fun r => (r.id, r.image)))
    ∧ (Sqlite.putTasks (some uid) i t c k db).2 = db
    ∧ (Pg.putTasks (some uid) i t c k db).2 = db
    ∧ (Sqlite.putNotes (some uid) i none db).2 = db
    ∧ (Pg.putNotes (some uid) i none db).2 = db := by
  have hga : ∀ P : Prop, P → ((some uid = none → P) ∧ P) := fun _ h => ⟨fun _ => h, h⟩
  by_cases huid : uid = 0
  · subst huid
    refine ⟨rfl, rfl, rfl, rfl, rfl, rfl⟩
  · refine ⟨?_, ?_, ?_, ?_, ?_, ?_⟩
    · simp only [Sqlite.putResources, isAuthenticated, huid, if_false]
      cases hv : (truthy title && truthy lk)
      · simp [hv]
      · simp only [hv, Bool.not_true, Bool.false_eq_true, if_false, hbi, orNull]
        exact map_comp_congr fun r hrm => by
          by_cases hc : (r.id == i && r.user_id == uid) = true <;> simp [hc]
    · simp only [Pg.putResources, isAuthenticated, huid, if_false]
      cases hv : (truthy title && truthy lk)
      · simp [hv]
      · simp only [hv, Bool.not_true, Bool.false_eq_true, if_false, hbi, orNull]
        exact map_comp_congr fun r hrm => by
          by_cases hc : (r.id == i && r.user_id == uid) = true <;> simp [hc]
    · simp only [Sqlite.putTasks, isAuthenticated, huid, if_false]
      rcases honefield with h | h | h
      · subst h; cases c <;> cases k <;> rfl
      · subst h; cases t <;> cases k <;> rfl
      · subst h; cases t <;> cases c <;> rfl
    · have hval2 : (truthy t = false ∨ truthy c = false) ∨ k = none := by
        rcases honefield with h | h | h <;> subst h <;> simp [truthy]
      simp [Pg.putTasks, isAuthenticated, huid, hval2]
    · simp only [Sqlite.putNotes, isAuthenticated, huid, if_false]
    · simp only [Pg.putNotes, isAuthenticated, huid, if_false]
      simp [truthy]

/-- Witness for C6 at a concrete input: a Note update with no content
against the sample database changes nothing. -/
theorem C6_partial_update_frame_witness :
    (Pg.putNotes (some 2) 1 none dbW).2 = dbW :=
  (C6_partial_update_frame dbW 2 1 (some "New") (some "https://y.com") none
    (by decide) none (some "c") (some 1) (Or.inl rfl)).2.2.2.2.2

/-- C7: delete with best-effort file reclamation.  Deleting a resource or
a file record removes the row matching id and owner id (no such row is in
the database afterwards, and the owner's subsequent list contains no row
with that id), the response is success, and both the response and the
resulting database are identical whether the filesystem unlink succeeds
or fails — row removal and file reclamation are independent outcomes. -/
theorem C7_delete_best_effort
    (db : Db) (fs : Fs) (uid i : Nat) (huid : uid ≠ 0) (ok ok2 : Bool) :
    (Sqlite.deleteResources (some uid) i ok (db, fs)).1 = ⟨200, .success⟩
    ∧ (∀ r ∈ (Sqlite.deleteResources (some uid) i ok (db, fs)).2.1.resources,
        ¬(r.id = i ∧ r.user_id = uid))
    ∧ (∀ rows, (Sqlite.getResources (some uid)
          (Sqlite.deleteResources (some uid) i ok (db, fs)).2.1).1.body
          = .resourceRows rows → ∀ r ∈ rows, r.id ≠ i)
    ∧ (Sqlite.deleteResources (some uid) i ok (db, fs)).1
        = (Sqlite.deleteResources (some uid) i ok2 (db, fs)).1
    ∧ (Sqlite.deleteResources (some uid) i ok (db, fs)).2.1
        = (Sqlite.deleteResources (some uid) i ok2 (db, fs)).2.1
    ∧ (Sqlite.deleteFiles (some uid) i ok (db, fs)).1 = ⟨200, .success⟩
    ∧ (∀ r ∈ (Sqlite.deleteFiles (some uid) i ok (db, fs)).2.1.files,
        ¬(r.id = i ∧ r.user_id = uid))
    ∧ (∀ rows, (Sqlite.getFiles (some uid)
          (Sqlite.deleteFiles (some uid) i ok (db, fs)).2.1).1.body
          = .fileRows rows → ∀ r ∈ rows, r.id ≠ i)
    ∧ (Sqlite.deleteFiles (some uid) i ok (db, fs)).1
        = (Sqlite.deleteFiles (some uid) i ok2 (db, fs)).1
    ∧ (Sqlite.deleteFiles (some uid) i ok (db, fs)).2.1
        = (Sqlite.deleteFiles (some uid) i ok2 (db, fs)).2.1 := by
  refine ⟨?_, ?_, ?_, ?_, ?_, ?_, ?_, ?_, ?_, ?_⟩
  · simp [Sqlite.deleteResources, isAuthenticated, huid]
  · intro r hrm hand
    simp only [Sqlite.deleteResources, isAuthenticated, huid, if_false] at hrm
    have := (List.mem_filter.mp hrm).2
    simp [hand.1, hand.2] at this
  · intro rows hrows
    simp only [Sqlite.getResources, Sqlite.deleteResources, isAuthenticated,
      huid, if_false] at hrows
    injection hrows with hrows
    subst hrows
    intro r hrm hid
    have h1 := (List.mem_filter.mp (List.mem_filter.mp hrm).1).2
    have h2 := (List.mem_filter.mp hrm).2
    simp at h1 h2
    rcases h1 with h1 | h1
    · exact h1 hid
    · exact h1 h2
  · simp [Sqlite.deleteResources, isAuthenticated, huid]
  · simp [Sqlite.deleteResources, isAuthenticated, huid]
  · simp [Sqlite.deleteFiles, isAuthenticated, huid]
  · intro r hrm hand
    simp only [Sqlite.deleteFiles, isAuthenticated, huid, if_false] at hrm
    have := (List.mem_filter.mp hrm).2
    simp [hand.1, hand.2] at this
  · intro rows hrows
    simp only [Sqlite.getFiles, Sqlite.deleteFiles, isAuthenticated,
      huid, if_false] at hrows
    injection hrows with hrows
    subst hrows
    intro r hrm hid
    have h1 := (List.mem_filter.mp (List.mem_filter.mp hrm).1).2
    have h2 := (List.mem_filter.mp hrm).2
    simp at h1 h2
    rcases h1 with h1 | h1
    · exact h1 hid
    · exact h1 h2
  · simp [Sqlite.deleteFiles, isAuthenticated, huid]
  · simp [Sqlite.deleteFiles, isAuthenticated, huid]

/-- Witness for C7 at a concrete input: user 2 deletes resource 1 (which
has an image) from the sample database; the response is success whether
the unlink succeeds or fails. -/
theorem C7_delete_best_effort_witness :
    (Sqlite.deleteResources (some 2) 1 true (dbW, ["/uploads/i.png"])).1
      = ⟨200, .success⟩ :=
  (C7_delete_best_effort dbW ["/uploads/i.png"] 2 1 (by decide) true false).1

/-- Inverting a decimal digit character recovers the digit. -/
theorem charToDec_decDigitChar : ∀ d, d < 10 → charToDec (decDigitChar d) = d := by
  decide

/-- A decimal digit character is never the dash separator. -/
theorem decDigitChar_ne_dash : ∀ d, d < 10 → decDigitChar d ≠ '-' := by
  decide

/-- Reading back the little-endian digit characters recovers the number
whenever the fuel suffices. -/
theorem fromDecimal_toDecimalAux :
    ∀ fuel n, n ≤ fuel → fromDecimal (toDecimalAux fuel n) = n := by
  intro fuel
  induction fuel with
  | zero =>
    intro n hn
    rw [Nat.le_zero.mp hn]
    rfl
  | succ fuel ih =>
    intro n hn
    by_cases h0 : n = 0
    · rw [h0]; rfl
    · have hlt : n / 10 < n := Nat.div_lt_self (Nat.pos_of_ne_zero h0) (by omega)
      have hrec := ih (n / 10) (by omega)
      simp only [toDecimalAux, h0, if_false, fromDecimal, hrec,
        charToDec_decDigitChar (n % 10) (Nat.mod_lt n (by omega))]
      omega

/-- No character produced by `toDecimalAux` is the dash separator. -/
theorem toDecimalAux_ne_dash :
    ∀ fuel n c, c ∈ toDecimalAux fuel n → c ≠ '-' := by
  intro fuel
  induction fuel with
  | zero => intro n c hc; simp [toDecimalAux] at hc
  | succ fuel ih =>
    intro n c hc
    by_cases h0 : n = 0
    · rw [h0] at hc; simp [toDecimalAux] at hc
    · simp only [toDecimalAux, h0, if_false, List.mem_cons] at hc
      rcases hc with hc | hc
      · rw [hc]
        exact decDigitChar_ne_dash (n % 10) (Nat.mod_lt n (by omega))
      · exact ih (n / 10) c hc

/-- The JS number-to-string coercion is injective on naturals. -/
theorem jsNumToString_inj {m n : Nat} (h : jsNumToString m = jsNumToString n) :
    m = n := by
  have hdata := congrArg String.data h
  by_cases hm : m = 0 <;> by_cases hn : n = 0
  · rw [hm, hn]
  · exfalso
    simp only [jsNumToString, hm, hn, if_true, if_false] at hdata
    have : toDecimalAux n n = ['0'] := by
      have := congrArg List.reverse hdata
      simpa using this.symm
    have h0 := fromDecimal_toDecimalAux n n le_rfl
    rw [this] at h0
    simp [fromDecimal, charToDec] at h0
    exact hn h0.symm
  · exfalso
    simp only [jsNumToString, hm, hn, if_true, if_false] at hdata
    have : toDecimalAux m m = ['0'] := by
      have := congrArg List.reverse hdata
      simpa using this
    have h0 := fromDecimal_toDecimalAux m m le_rfl
    rw [this] at h0
    simp [fromDecimal, charToDec] at h0
    exact hm h0.symm
  · simp only [jsNumToString, hm, hn, if_false] at hdata
    have hl : toDecimalAux m m = toDecimalAux n n := by
      have := congrArg List.reverse hdata
      simpa using this
    have h1 := fromDecimal_toDecimalAux m m le_rfl
    have h2 := fromDecimal_toDecimalAux n n le_rfl
    rw [← h1, ← h2, hl]

/-- No character of a JS-printed natural is the dash separator. -/
theorem jsNumToString_ne_dash (n : Nat) :
    ∀ c ∈ (jsNumToString n).data, c ≠ '-' := by
  intro c hc
  by_cases h0 : n = 0
  · simp only [jsNumToString, h0, if_true] at hc
    simp at hc
    rw [hc]
    decide
  · simp only [jsNumToString, h0, if_false] at hc
    have : c ∈ toDecimalAux n n := List.mem_reverse.mp hc
    exact toDecimalAux_ne_dash n n c this

/-- Splitting two dash-separated character lists whose heads contain no
dash: the parts agree. -/
theorem append_dash_inj :
    ∀ (l1 l2 r1 r2 : List Char), '-' ∉ l1 → '-' ∉ l2 →
      l1 ++ '-' :: r1 = l2 ++ '-' :: r2 → l1 = l2 ∧ r1 = r2 := by
  intro l1
  induction l1 with
  | nil =>
    intro l2 r1 r2 h1 h2 h
    cases l2 with
    | nil => simpa using h
    | cons c t =>
      exfalso
      simp only [List.nil_append, List.cons_append, List.cons.injEq] at h
      exact h2 (by simp [← h.1])
  | cons c t ih =>
    intro l2 r1 r2 h1 h2 h
    cases l2 with
    | nil =>
      exfalso
      simp only [List.nil_append, List.cons_append, List.cons.injEq] at h
      exact h1 (by simp [h.1])
    | cons c2 t2 =>
      simp only [List.cons_append, List.cons.injEq] at h
      have ht := ih t2 r1 r2 (fun hm => h1 (by simp [hm]))
        (fun hm => h2 (by simp [hm])) h.2
      exact ⟨by simp [h.1, ht.1], ht.2⟩

/-- The generated stored filename determines the observed timestamp and
the original filename. -/
theorem genFilename_inj {t1 t2 : Nat} {n1 n2 : String}
    (h : genFilename t1 n1 = genFilename t2 n2) : t1 = t2 ∧ n1 = n2 := by
  have hdata := congrArg String.data h
  simp only [genFilename, String.data_append] at hdata
  have hdata2 : (jsNumToString t1).data ++ '-' :: n1.data
      = (jsNumToString t2).data ++ '-' :: n2.data := by
    simpa using hdata
  have hsplit := append_dash_inj (jsNumToString t1).data (jsNumToString t2).data
    n1.data n2.data
    (fun hm => jsNumToString_ne_dash t1 '-' hm rfl)
    (fun hm => jsNumToString_ne_dash t2 '-' hm rfl)
    hdata2
  constructor
  · exact jsNumToString_inj (String.ext hsplit.1)
  · exact String.ext hsplit.2

/-- C8 counterexample: two distinct store calls that observe the same
`Date.now()` millisecond and carry the same original filename generate the
same stored name, so the second store overwrites the first. -/
theorem C8_counterexample :
    (⟨0, 1700000000000, "notes.pdf"⟩ : StoreCall)
      ≠ (⟨1, 1700000000000, "notes.pdf"⟩ : StoreCall)
    ∧ storedName ⟨0, 1700000000000, "notes.pdf"⟩
      = storedName ⟨1, 1700000000000, "notes.pdf"⟩ :=
  ⟨by decide, rfl⟩

/-- C8 amended: the generated stored filename is unique per (timestamp,
original filename) pair, not per call — two store calls generate the same
name exactly when they observe the same `Date.now()` value and carry the
same original filename, so a collision (and hence an overwrite) requires
two uploads of the same original name within one millisecond. -/
theorem C8_upload_naming_amended (c1 c2 : StoreCall)
    (h : storedName c1 = storedName c2) :
    c1.now = c2.now ∧ c1.originalname = c2.originalname :=
  genFilename_inj h

/-- Witness for C8 at a concrete input: two calls with equal timestamp
and name indeed agree on both components. -/
theorem C8_upload_naming_amended_witness :
    (⟨0, 5, "a.png"⟩ : StoreCall).now = (⟨1, 5, "a.png"⟩ : StoreCall).now
    ∧ (⟨0, 5, "a.png"⟩ : StoreCall).originalname
      = (⟨1, 5, "a.png"⟩ : StoreCall).originalname :=
  C8_upload_naming_amended ⟨0, 5, "a.png"⟩ ⟨1, 5, "a.png"⟩ rfl

/-- C9 counterexample: in the SQLite variant an authenticated Topic create
whose subject is empty (missing in the sense of the validation the code
itself uses elsewhere) is not rejected with 400 — the row is inserted and
the response is success, contradicting the claim at this concrete input. -/
theorem C9_counterexample :
    (Sqlite.postTopics (some 1) (some "") (some "sub") (some "exp") (some "")
        none db0).1 = ⟨200, .success⟩
    ∧ (Sqlite.postTopics (some 1) (some "") (some "sub") (some "exp") (some "")
        none db0).2.topics
      = [⟨1, some "", some "sub", some "exp", none, some ""⟩] :=
  ⟨rfl, rfl⟩

/-- C9 amended: Topic validation behaves as claimed only in the PostgreSQL
variant (create and update answer 400 and change nothing when subject,
subtopic or explanation is missing); the SQLite variant performs no
validation: present-but-empty fields are persisted with success, and an
absent field only fails because the undefined statement binding throws
(500, nothing changed), not as a 400 ValidationError. -/
theorem C9_topic_validation_amended
    (db : Db) (uid i : Nat) (huid : uid ≠ 0)
    (s1 s2 s3 l bi : Field) (f : Option String)
    (hmiss : (truthy s1 && truthy s2 && truthy s3) = false) :
    Pg.postTopics (some uid) s1 s2 s3 l f db
      = (⟨400, .error "Faltan subject, subtopic o explanation"⟩, db)
    ∧ Pg.putTopics (some uid) i s1 s2 s3 l f bi db
      = (⟨400, .error "Faltan subject, subtopic o explanation"⟩, db)
    ∧ (s1 = none ∨ s2 = none ∨ s3 = none ∨ l = none →
        Sqlite.postTopics (some uid) s1 s2 s3 l f db = (crashResp, db)
        ∧ Sqlite.putTopics (some uid) i s1 s2 s3 l f bi db = (crashResp, db))
    ∧ (∀ e1 e2 e3 e4 : String,
        (Sqlite.postTopics (some uid) (some e1) (some e2) (some e3) (some e4)
            f db).1 = ⟨200, .success⟩
        ∧ (Sqlite.postTopics (some uid) (some e1) (some e2) (some e3) (some e4)
            f db).2.topics
          = db.topics ++ [⟨db.nextTopicId, some e1, some e2, some e3,
              f.map (fun fn => "/uploads/" ++ fn), some e4⟩]) := by
  refine ⟨?_, ?_, ?_, ?_⟩
  · simp [Pg.postTopics, isAuthenticated, huid, hmiss]
  · simp [Pg.putTopics, isAuthenticated, huid, hmiss]
  · intro hmissing
    have step : ∀ (dbin : Db),
        (match s1, s2, s3, l with
          | some a, some b, some c, some d => (a, b, c, d)
          | _, _, _, _ => ("", "", "", "")) = ("", "", "", "") →
        True := fun _ _ => trivial
    constructor
    · simp only [Sqlite.postTopics, isAuthenticated, huid, if_false]
      rcases hmissing with h | h | h | h <;> subst h
      · cases s2 <;> cases s3 <;> cases l <;> rfl
      · cases s1 <;> cases s3 <;> cases l <;> rfl
      · cases s1 <;> cases s2 <;> cases l <;> rfl
      · cases s1 <;> cases s2 <;> cases s3 <;> rfl
    · simp only [Sqlite.putTopics, isAuthenticated, huid, if_false]
      rcases hmissing with h | h | h | h <;> subst h
      · cases s2 <;> cases s3 <;> cases l <;> rfl
      · cases s1 <;> cases s3 <;> cases l <;> rfl
      · cases s1 <;> cases s2 <;> cases l <;> rfl
      · cases s1 <;> cases s2 <;> cases s3 <;> rfl
  · intro e1 e2 e3 e4
    constructor
    · simp [Sqlite.postTopics, isAuthenticated, huid]
    · simp [Sqlite.postTopics, isAuthenticated, huid]

/-- Witness for C9 at a concrete input: against the PostgreSQL variant a
Topic create with empty subject answers 400 and inserts nothing. -/
theorem C9_topic_validation_amended_witness :
    Pg.postTopics (some 1) (some "") (some "sub") (some "exp") (some "")
        none db0
      = (⟨400, .error "Faltan subject, subtopic o explanation"⟩, db0) :=
  (C9_topic_validation_amended db0 1 1 (by decide) (some "") (some "sub")
    (some "exp") (some "") none none (by decide)).1

/-- A list is related by `Forall₂` to its image under a map whenever the
relation holds pointwise. -/
theorem forall₂_map_self {α : Type} {R : α → α → Prop} {l : List α} {f : α → α}
    (h : ∀ a ∈ l, R a (f a)) : List.Forall₂ R l (l.map f) := by
  induction l with
  | nil => exact List.Forall₂.nil
  | cons a t ih =>
    exact List.Forall₂.cons (h a (by simp)) (ih fun b hb => h b (by simp [hb]))

/-- C10: images can never be cleared once set.  Every resource update (both
variants), topic update and user-profile update relates each stored row to
its updated self, and a non-null image (profile picture) stays non-null:
the image column is only included in the UPDATE when a truthy new value is
present, so no request resets an image to null. -/
theorem C10_image_never_cleared
    (db : Db) (uid i : Nat)
    (title lk s1 s2 s3 l bodyImage n e ph so bp : Field) (f : Option String) :
    List.Forall₂ (fun r r2 => r.image.isSome = true → r2.image.isSome = true)
      db.resources (Sqlite.putResources (some uid) i title lk f bodyImage db).2.resources
    ∧ List.Forall₂ (fun r r2 => r.image.isSome = true → r2.image.isSome = true)
      db.resources (Pg.putResources (some uid) i title lk f bodyImage db).2.resources
    ∧ List.Forall₂ (fun r r2 => r.image.isSome = true → r2.image.isSome = true)
      db.topics (Sqlite.putTopics (some uid) i s1 s2 s3 l f bodyImage db).2.topics
    ∧ List.Forall₂ (fun w w2 => w.profile_pic.isSome = true → w2.profile_pic.isSome = true)
      db.users (Sqlite.userUpdate (some uid) n e ph so f bp db).2.users := by
  have hrefl : ∀ (β : Type) (g : β → Option String) (lst : List β),
      List.Forall₂ (fun r r2 => (g r).isSome = true → (g r2).isSome = true) lst lst :=
    fun β g lst => List.forall₂_same.mpr fun x _ => id
  by_cases huid : uid = 0
  · subst huid
    exact ⟨hrefl ResourceRow ResourceRow.image _, hrefl ResourceRow ResourceRow.image _,
      hrefl TopicRow TopicRow.image _, hrefl UserRow UserRow.profile_pic _⟩
  · refine ⟨?_, ?_, ?_, ?_⟩
    · simp only [Sqlite.putResources, isAuthenticated, huid, if_false]
      cases hv : (truthy title && truthy lk)
      · simp only [hv, Bool.not_false, if_true]
        exact hrefl ResourceRow ResourceRow.image _
      · simp only [hv, Bool.not_true, Bool.false_eq_true, if_false]
        refine forall₂_map_self fun r hrm => ?_
        by_cases hc : (r.id == i && r.user_id == uid) = true <;>
          cases f <;> simp [hc, orNull] <;>
          cases hbi : truthy bodyImage <;> simp [hbi] <;>
          cases bodyImage <;> simp_all [truthy]
    · simp only [Pg.putResources, isAuthenticated, huid, if_false]
      cases hv : (truthy title && truthy lk)
      · simp only [hv, Bool.not_false, if_true]
        exact hrefl ResourceRow ResourceRow.image _
      · simp only [hv, Bool.not_true, Bool.false_eq_true, if_false]
        refine forall₂_map_self fun r hrm => ?_
        by_cases hc : (r.id == i && r.user_id == uid) = true <;>
          cases f <;> simp [hc, orNull] <;>
          cases hbi : truthy bodyImage <;> simp [hbi] <;>
          cases bodyImage <;> simp_all [truthy]
    · simp only [Sqlite.putTopics, isAuthenticated, huid, if_false]
      cases s1 <;> cases s2 <;> cases s3 <;> cases l <;>
        first
        | exact hrefl TopicRow TopicRow.image _
        | (refine forall₂_map_self fun r hrm => ?_
           by_cases hc : (r.id == i) = true <;>
             cases f <;> simp [hc, orNull] <;>
             cases hbi : truthy bodyImage <;> simp [hbi] <;>
             cases bodyImage <;> simp_all [truthy])
    · simp only [Sqlite.userUpdate, isAuthenticated, huid, if_false]
      by_cases hconf : (match orNull e with
          | some emv => db.users.any (fun w => w.id != uid && w.email == some emv)
          | none => false) = true
      · simp only [hconf, if_true]
        exact hrefl UserRow UserRow.profile_pic _
      · simp only [hconf, if_false]
        refine forall₂_map_self fun w hw => ?_
        by_cases hc : (w.id == uid) = true <;>
          cases f <;> simp [hc, orNull] <;>
          cases hbp : truthy bp <;> simp [hbp] <;>
          cases bp <;> simp_all [truthy]

end Plataforma
